import Mathlib

/-!
# Verification of the MACRO-FACTOR-MONITOR fetch-reliability and signal-synthesis core

Shallow embedding of the repository's core pipeline:

* `src/config.py`   — `DATA_SOURCES`, `THRESHOLDS`, `AGENT_WEIGHTS`
* `src/models.py`   — `Signal`, `FactorCategory`, `DataSource`, `FactorReading`,
  `AgentResult`, `SwarmReport`
* `src/fetcher.py`  — `MacroDataFetcher.fetch` / `_validate_value` with the
  `FALLBACK` / `VALUE_BOUNDS` tables, and the stateful `FREDClient.fetch` cache
* `src/agents.py`   — `BaseAgent._vote`, `ValuationAgent.analyze`
* `src/swarm.py`    — `SignalSynthesizer.synthesize`

Numeric values are embedded as exact rationals (`ℚ`).  Network effects are
passed in as explicit oracle arguments (what each upstream call would return;
`none` covers both a `None` result and a raised-and-caught exception), and the
clock (`datetime.now()` / `time.time()`) is an explicit `now : ℚ` argument, so
every definition is a pure function of the code's actual inputs.
-/

/-- `models.py` `Signal` enum. -/
inductive Signal where
  | BULLISH
  | BEARISH
  | NEUTRAL
deriving DecidableEq, Repr

/-- `models.py` `FactorCategory` enum. -/
inductive FactorCategory where
  | LIQUIDITY
  | VALUATION
  | RISK_SENTIMENT
deriving DecidableEq, Repr

/-- `models.py` `DataSource` dataclass (name, url, fred_id, frequency). -/
structure DataSource where
  name : String
  url : String
  fred_id : Option String := none
  frequency : String := "Daily"
deriving DecidableEq, Repr

/-- `models.py` `FactorReading` dataclass. -/
structure FactorReading where
  name : String
  name_en : String
  category : FactorCategory
  current_value : ℚ
  unit : String
  signal : Signal
  source : DataSource
  bull_condition : String := ""
  bear_condition : String := ""
  interpretation : String := ""
  historical_avg : Option ℚ := none
  fetched_at : Option ℚ := none
  is_live : Bool := false
deriving DecidableEq, Repr

/-- `models.py` `AgentResult` dataclass.  The `timestamp` field is the clock
value at construction (`datetime.now()` in the source). -/
structure AgentResult where
  agent_name : String
  category : FactorCategory
  factors : List FactorReading := []
  summary : String := ""
  signal : Signal := Signal.NEUTRAL
  confidence : ℚ := 1/2
  formula : String := ""
  error : Option String := none
  timestamp : ℚ := 0
deriving DecidableEq, Repr

/-- `models.py` `SwarmReport` dataclass.  The `timestamp` field is the clock
value at construction (`datetime.now()` in the source). -/
structure SwarmReport where
  agent_results : List AgentResult := []
  overall_signal : Signal := Signal.NEUTRAL
  weighted_score : ℚ := 0
  bull_factors : List String := []
  neutral_factors : List String := []
  bear_factors : List String := []
  narrative : String := ""
  all_sources : List DataSource := []
  live_count : Nat := 0
  fallback_count : Nat := 0
  timestamp : ℚ := 0
deriving DecidableEq, Repr

/-! ## `config.py` -/

/-- The fields of a `config.py` `DATA_SOURCES` entry that `fetcher.py` reads
(`name`, `url`, `fred_id`, `frequency`). -/
structure SrcDef where
  name : String
  url : String
  fred_id : Option String
  frequency : String
deriving DecidableEq, Repr

/-- `config.py` `DATA_SOURCES` registry (the four fields consumed by
`MacroDataFetcher.fetch`). -/
def DATA_SOURCES (key : String) : Option SrcDef :=
  if key = "WALCL" then
    some ⟨"Fed资产负债表", "https://fred.stlouisfed.org/series/WALCL", some "WALCL", "Weekly"⟩
  else if key = "TGA" then
    some ⟨"TGA财政部账户", "https://fred.stlouisfed.org/series/WTREGEN", some "WTREGEN", "Weekly"⟩
  else if key = "RRP" then
    some ⟨"隔夜逆回购", "https://www.newyorkfed.org/markets/desk-operations/reverse-repo",
      some "RRPONTSYD", "Daily"⟩
  else if key = "SOFR" then
    some ⟨"SOFR利率", "https://www.newyorkfed.org/markets/reference-rates/sofr",
      some "SOFR", "Daily"⟩
  else if key = "DGS10" then
    some ⟨"10Y国债收益率", "https://fred.stlouisfed.org/series/DGS10", some "DGS10", "Daily"⟩
  else if key = "DGS2" then
    some ⟨"2Y国债收益率", "https://fred.stlouisfed.org/series/DGS2", some "DGS2", "Daily"⟩
  else if key = "T10Y2Y" then
    some ⟨"10Y-2Y利差", "https://fred.stlouisfed.org/series/T10Y2Y", some "T10Y2Y", "Daily"⟩
  else if key = "HY_OAS" then
    some ⟨"HY信用利差", "https://fred.stlouisfed.org/series/BAMLH0A0HYM2",
      some "BAMLH0A0HYM2", "Daily"⟩
  else if key = "IG_OAS" then
    some ⟨"IG信用利差", "https://fred.stlouisfed.org/series/BAMLC0A0CM",
      some "BAMLC0A0CM", "Daily"⟩
  else if key = "VIX" then
    some ⟨"VIX恐慌指数", "https://fred.stlouisfed.org/series/VIXCLS", some "VIXCLS", "Daily"⟩
  else if key = "SP500_PE" then
    some ⟨"S&P 500 TTM PE", "https://www.multpl.com/s-p-500-pe-ratio", none, "Daily"⟩
  else if key = "SP500_FWD_PE" then
    some ⟨"S&P 500 Forward PE", "https://en.macromicro.me/series/20052/sp500-forward-pe-ratio",
      none, "Daily"⟩
  else if key = "SHILLER_CAPE" then
    some ⟨"Shiller CAPE",
      "https://www.longtermtrends.net/sp500-price-earnings-shiller-pe-ratio/", none, "Monthly"⟩
  else if key = "DXY" then
    some ⟨"美元指数", "https://www.tradingview.com/symbols/TVC-DXY/", none, "Daily"⟩
  else none

/-- `config.py` `THRESHOLDS` rows used by `ValuationAgent` (`bull`, `bear`,
`hist_avg`). -/
structure Threshold where
  bull : ℚ
  bear : ℚ
  hist_avg : ℚ
deriving DecidableEq, Repr

/-- `THRESHOLDS["TTM_PE"]`. -/
def TH_TTM_PE : Threshold := ⟨18, 25, 19.7⟩

/-- `THRESHOLDS["FWD_PE"]`. -/
def TH_FWD_PE : Threshold := ⟨18, 22, 17⟩

/-- `THRESHOLDS["ERP"]`. -/
def TH_ERP : Threshold := ⟨2, 1, 2.5⟩

/-- `config.py` `AGENT_WEIGHTS`, applied through the `cat_map` in
`SignalSynthesizer.synthesize`. -/
def catWeight : FactorCategory → ℚ
  | .LIQUIDITY => 1.5
  | .VALUATION => 1.3
  | .RISK_SENTIMENT => 1

/-! ## `fetcher.py`: `MacroDataFetcher` tables -/

/-- `MacroDataFetcher.FALLBACK` — hardcoded last-known fallback values. -/
def FALLBACK (key : String) : Option ℚ :=
  if key = "WALCL" then some 6605909
  else if key = "TGA" then some 908773
  else if key = "RRP" then some 1
  else if key = "DGS10" then some 4.16
  else if key = "DGS2" then some 3.45
  else if key = "T10Y2Y" then some 0.66
  else if key = "HY_OAS" then some 2.86
  else if key = "IG_OAS" then some 0.77
  else if key = "VIX" then some 17.79
  else if key = "SP500_PE" then some 29.81
  else if key = "SP500_FWD_PE" then some 22
  else if key = "DXY" then some 96.9
  else if key = "SOFR" then some 3.65
  else if key = "SHILLER_CAPE" then some 40.35
  else none

/-- `MacroDataFetcher.VALUE_BOUNDS` — per-factor plausibility ranges. -/
def VALUE_BOUNDS (key : String) : Option (ℚ × ℚ) :=
  if key = "WALCL" then some (3000000, 15000000)
  else if key = "TGA" then some (0, 2000000)
  else if key = "RRP" then some (0, 3000)
  else if key = "DGS10" then some (0, 20)
  else if key = "DGS2" then some (0, 20)
  else if key = "T10Y2Y" then some (-5, 5)
  else if key = "HY_OAS" then some (0, 25)
  else if key = "IG_OAS" then some (0, 10)
  else if key = "VIX" then some (5, 100)
  else if key = "SP500_PE" then some (5, 100)
  else if key = "SP500_FWD_PE" then some (5, 100)
  else if key = "DXY" then some (60, 140)
  else if key = "SOFR" then some (0, 20)
  else if key = "SHILLER_CAPE" then some (5, 100)
  else none

/-- `MacroDataFetcher._validate_value`: true when no bounds are configured for
the key, or the value lies within the configured `(lo, hi)` range. -/
def validate_value (key : String) (v : ℚ) : Bool :=
  match VALUE_BOUNDS key with
  | none => true
  | some (lo, hi) => decide (lo ≤ v ∧ v ≤ hi)

/-- The `DataSource` that `MacroDataFetcher.fetch` builds from the
`DATA_SOURCES` entry for `key` (with the `.get` defaults used in the source:
`name=key`, `url=""`, `fred_id=None`, `frequency="Daily"`). -/
def mkSource (key : String) : DataSource :=
  match DATA_SOURCES key with
  | some d => ⟨d.name, d.url, d.fred_id, d.frequency⟩
  | none => ⟨key, "", none, "Daily"⟩

/-- The `fred_id` that `MacroDataFetcher.fetch` looks up for a key
(`src_def.get("fred_id")`). -/
def fredId (key : String) : Option String :=
  (DATA_SOURCES key).bind (·.fred_id)

/-- Labels of `MacroDataFetcher.NON_FRED_FETCH_CHAIN` — the registered
alternate fetch functions per key, in registration order. -/
def chainLabels (key : String) : List String :=
  if key = "SP500_PE" then ["Multpl"]
  else if key = "SP500_FWD_PE" then ["Yahoo Finance"]
  else if key = "DXY" then ["Yahoo Finance"]
  else if key = "SHILLER_CAPE" then ["Multpl"]
  else []

/-- The tier-2 loop of `MacroDataFetcher.fetch` over the non-FRED chain:
`oracle i` is what the `i`-th registered fetch function returns (`none` covers
both a `None` return and a raised-and-caught exception).  Returns the first
validated value together with the number of chain functions invoked. -/
def chainTryGo (key : String) (oracle : Nat → Option ℚ) : List Nat → Option ℚ × Nat
  | [] => (none, 0)
  | i :: rest =>
    match oracle i with
    | some v =>
      if validate_value key v then (some v, 1)
      else ((chainTryGo key oracle rest).1, (chainTryGo key oracle rest).2 + 1)
    | none => ((chainTryGo key oracle rest).1, (chainTryGo key oracle rest).2 + 1)

/-- Result of the non-FRED fetch chain for `key` (first validated success). -/
def chainTry (key : String) (oracle : Nat → Option ℚ) : Option ℚ × Nat :=
  chainTryGo key oracle (List.range (chainLabels key).length)

/-- Tier 1 of `MacroDataFetcher.fetch`: the FRED attempt.  `fredRes` is what
`self.fred.fetch(fred_id)` returns; the tier succeeds only when a `fred_id` is
configured, a value came back, and it passes `_validate_value`. -/
def fredStep (key : String) (fredRes : Option ℚ) : Option ℚ :=
  match fredId key with
  | none => none
  | some _ =>
    match fredRes with
    | none => none
    | some v => if validate_value key v then some v else none

/-- `MacroDataFetcher.fetch` as a function of the upstream responses:
FRED tier → non-FRED chain → hardcoded fallback → `ValueError`.
The staleness check on `FALLBACK_DATE` in the source only chooses a log
message; it never changes the returned value, so it does not appear here. -/
def fetchCore (key : String) (fredRes : Option ℚ) (oracle : Nat → Option ℚ) :
    Except String (ℚ × Bool × DataSource) :=
  match fredStep key fredRes with
  | some v => .ok (v, true, mkSource key)
  | none =>
    match (chainTry key oracle).1 with
    | some v => .ok (v, true, mkSource key)
    | none =>
      match FALLBACK key with
      | some f => .ok (f, false, mkSource key)
      | none => .error ("No data available for " ++ key)

/-- `MacroDataFetcher.fetch` with the FRED client abstracted as a function
from series id to its returned value. -/
def fetch (key : String) (fredFetch : String → Option ℚ) (oracle : Nat → Option ℚ) :
    Except String (ℚ × Bool × DataSource) :=
  fetchCore key ((fredId key).bind fredFetch) oracle

/-! ## `fetcher.py`: `FREDClient` cache state

`FREDClient._cache` maps a series id to `(value, timestamp)`; `_cache_ttl` is
1800 seconds.  The cache is the only state; the API/CSV network results are
oracle arguments (`none` covers failures at every retry).  The lock only
guards the dictionary operations and does not affect the sequential
semantics modelled here. -/

/-- One `FREDClient._cache` table: series id ↦ (value, stored-at time). -/
def FredCache := List (String × ℚ × ℚ)

/-- Python dict assignment `self._cache[series_id] = (val, time.time())`. -/
def cacheInsert (sid : String) (v : ℚ) (now : ℚ) (st : FredCache) : FredCache :=
  (sid, v, now) :: List.filter (fun e => !(e.1 == sid)) st

/-- Dict lookup `self._cache[series_id]`. -/
def cacheLookup (sid : String) (st : FredCache) : Option (ℚ × ℚ) :=
  (List.find? (fun e => e.1 == sid) st).map (·.2)

/-- `FREDClient.fetch`: cache (within 1800 s TTL) → API (when a key is
configured) → CSV.  Returns the value, the updated cache, and whether any
network tier was attempted (`false` exactly on a cache hit). -/
def fredClientFetch (hasApiKey : Bool) (apiRes csvRes : Option ℚ)
    (st : FredCache) (now : ℚ) (sid : String) : Option ℚ × FredCache × Bool :=
  match cacheLookup sid st with
  | some (v, ts) =>
    if now - ts < 1800 then (some v, st, false)
    else fredClientNetwork hasApiKey apiRes csvRes st now sid
  | none => fredClientNetwork hasApiKey apiRes csvRes st now sid
where
  /-- The network portion of `FREDClient.fetch` (API then CSV), caching any
  success. -/
  fredClientNetwork (hasApiKey : Bool) (apiRes csvRes : Option ℚ)
      (st : FredCache) (now : ℚ) (sid : String) : Option ℚ × FredCache × Bool :=
    match hasApiKey, apiRes with
    | true, some v => (some v, cacheInsert sid v now st, true)
    | _, _ =>
      match csvRes with
      | some v => (some v, cacheInsert sid v now st, true)
      | none => (none, st, true)

/-- Observable outcome of one stateful `MacroDataFetcher.fetch` call:
the returned triple (or error), the FRED cache afterwards, whether the FRED
client touched the network, and how many non-FRED chain functions ran. -/
structure FetchOut where
  result : Except String (ℚ × Bool × DataSource)
  cache : FredCache
  fredNet : Bool
  chainAttempts : Nat

/-- `MacroDataFetcher.fetch` with the `FREDClient` cache state made explicit:
tier 1 consults `FREDClient.fetch` (which may answer from its cache), then the
non-FRED chain, then the hardcoded fallback. -/
def fetchS (key : String) (hasApiKey : Bool) (apiRes csvRes : Option ℚ)
    (oracle : Nat → Option ℚ) (st : FredCache) (now : ℚ) : FetchOut :=
  match fredId key with
  | some fid =>
    let (r, st', net) := fredClientFetch hasApiKey apiRes csvRes st now fid
    match r with
    | some v =>
      if validate_value key v then ⟨.ok (v, true, mkSource key), st', net, 0⟩
      else fetchSRest key oracle st' net
    | none => fetchSRest key oracle st' net
  | none => fetchSRest key oracle st false
where
  /-- Tiers 2–3 of `MacroDataFetcher.fetch` (chain, then fallback); the FRED
  cache is no longer touched. -/
  fetchSRest (key : String) (oracle : Nat → Option ℚ) (st : FredCache)
      (net : Bool) : FetchOut :=
    let (c, n) := chainTry key oracle
    match c with
    | some v => ⟨.ok (v, true, mkSource key), st, net, n⟩
    | none =>
      match FALLBACK key with
      | some f => ⟨.ok (f, false, mkSource key), st, net, n⟩
      | none => ⟨.error ("No data available for " ++ key), st, net, n⟩

/-! ## `agents.py` -/

/-- `BaseAgent._vote`: count BULLISH vs BEARISH factors; the denominator is
`len(factors) or 1`; a tie yields NEUTRAL with confidence fixed at 1/2. -/
def vote (factors : List FactorReading) : Signal × ℚ :=
  let bull := factors.countP (fun f => decide (f.signal = Signal.BULLISH))
  let bear := factors.countP (fun f => decide (f.signal = Signal.BEARISH))
  let total : Nat := if factors.length = 0 then 1 else factors.length
  if bull > bear then (Signal.BULLISH, (bull : ℚ) / (total : ℚ))
  else if bear > bull then (Signal.BEARISH, (bear : ℚ) / (total : ℚ))
  else (Signal.NEUTRAL, 1/2)

/-- Round half to even at a given scale, as Python's built-in `round(x, 2)`
does (ties to even). -/
def roundHalfEven (x : ℚ) : ℤ :=
  let f := ⌊x⌋
  let r := x - (f : ℚ)
  if r < 1/2 then f
  else if 1/2 < r then f + 1
  else if f % 2 = 0 then f else f + 1

/-- Python `round(x, 2)`. -/
def round2 (x : ℚ) : ℚ := (roundHalfEven (x * 100) : ℚ) / 100

/-- The zero-value guard in `ValuationAgent.analyze`: when the fetched Forward
PE is non-positive, substitute the historical average (17.0) and downgrade the
liveness flag used for the ERP factor. -/
def fwdGuard (fwdVal : ℚ) (fwdLive : Bool) : ℚ × Bool :=
  if fwdVal ≤ 0 then (TH_FWD_PE.hist_avg, false) else (fwdVal, fwdLive)

/-- The `summary` string built at the end of `ValuationAgent.analyze`
(numeric rendering via `toString` instead of Python float formatting). -/
def valuationSummary (peVal fwdVal erp : ℚ) : String :=
  "PE " ++ toString peVal ++ "x (均值" ++ toString TH_TTM_PE.hist_avg ++ "x) | Fwd PE "
    ++ toString fwdVal ++ "x | ERP " ++ toString erp ++ "% (均值"
    ++ toString TH_ERP.hist_avg ++ "%)"

/-- `ValuationAgent.analyze`, abstracted over the three fetch outcomes
(`fetch` always returns `mkSource key` as the source, so only the value and
liveness flag of each fetch are parameters).  The exception handler at the top
of `analyze` never fires once the three fetches have produced values, so the
result always has `error = none`. -/
def analyzeValuation (peVal : ℚ) (peLive : Bool) (fwdVal : ℚ) (fwdLive : Bool)
    (y10Val : ℚ) (y10Live : Bool) (now : ℚ) : AgentResult :=
  let th_pe := TH_TTM_PE
  let peSig := if peVal > th_pe.bear then Signal.BEARISH
    else if peVal < th_pe.bull then Signal.BULLISH else Signal.NEUTRAL
  let f1 : FactorReading :=
    { name := "S&P 500 TTM PE", name_en := "TTM PE", category := .VALUATION
      current_value := peVal, unit := "x", signal := peSig
      source := mkSource "SP500_PE"
      bull_condition := "<" ++ toString th_pe.bull ++ "x 便宜"
      bear_condition := ">" ++ toString th_pe.bear ++ "x 贵"
      interpretation :=
        (if peVal > th_pe.hist_avg then "高于" else "低于") ++ "历史均值"
          ++ toString th_pe.hist_avg ++ "x"
      historical_avg := some th_pe.hist_avg, is_live := peLive }
  let th_fwd := TH_FWD_PE
  let fwdSig := if fwdVal > th_fwd.bear then Signal.BEARISH
    else if fwdVal < th_fwd.bull then Signal.BULLISH else Signal.NEUTRAL
  let f2 : FactorReading :=
    { name := "S&P 500 Forward PE", name_en := "Forward PE", category := .VALUATION
      current_value := fwdVal, unit := "x", signal := fwdSig
      source := mkSource "SP500_FWD_PE"
      bull_condition := "<" ++ toString th_fwd.bull ++ "x"
      bear_condition := ">" ++ toString th_fwd.bear ++ "x"
      interpretation := if fwdVal > 21 then "接近泡沫水平" else "合理"
      historical_avg := some th_fwd.hist_avg, is_live := fwdLive }
  let f3 : FactorReading :=
    { name := "10Y国债收益率", name_en := "10Y Yield", category := .VALUATION
      current_value := y10Val, unit := "%", signal := Signal.NEUTRAL
      source := mkSource "DGS10"
      interpretation := "基准无风险利率", is_live := y10Live }
  let (fwdVal', fwdLive') := fwdGuard fwdVal fwdLive
  let earnings_yield := (1 / fwdVal') * 100
  let erp := earnings_yield - y10Val
  let th_erp := TH_ERP
  let erpSig := if erp > th_erp.bull then Signal.BULLISH
    else if erp < th_erp.bear then Signal.BEARISH else Signal.NEUTRAL
  let f4 : FactorReading :=
    { name := "股权风险溢价", name_en := "ERP", category := .VALUATION
      current_value := round2 erp, unit := "%", signal := erpSig
      source := ⟨"计算值", "", none, "Daily"⟩
      bull_condition := ">" ++ toString th_erp.bull ++ "% 股票便宜"
      bear_condition := "<" ++ toString th_erp.bear ++ "% 股票贵"
      interpretation := "Earnings Yield " ++ toString earnings_yield ++ "% − 10Y "
        ++ toString y10Val ++ "% = " ++ toString erp ++ "%"
      historical_avg := some th_erp.hist_avg
      is_live := fwdLive' && y10Live }
  let factors := [f1, f2, f3, f4]
  let sc := vote factors
  { agent_name := "ValuationAgent", category := .VALUATION
    factors := factors, summary := valuationSummary peVal fwdVal' erp
    signal := sc.1, confidence := sc.2
    formula := "ERP = (1 / Forward PE) − 10Y Yield"
    error := none, timestamp := now }

/-! ## `swarm.py`: `SignalSynthesizer.synthesize` -/

/-- Python truthiness of `r.error` in `if r.error: continue`: an `AgentResult`
is skipped exactly when its error is a non-empty string (`None` and `""` are
both falsy). -/
def truthyErr (r : AgentResult) : Bool :=
  match r.error with
  | none => false
  | some s => !s.isEmpty

/-- The results that survive the `if r.error: continue` filter. -/
def survivors (results : List AgentResult) : List AgentResult :=
  results.filter (fun r => !truthyErr r)

/-- The `all_factors` list accumulated in `synthesize`'s first loop. -/
def allFactors (results : List AgentResult) : List FactorReading :=
  (survivors results).flatMap (·.factors)

/-- The factor display label `f"{f.name} ({f.current_value}{f.unit})"`
(numeric rendering via `toString`). -/
def factorLabel (f : FactorReading) : String :=
  f.name ++ " (" ++ toString f.current_value ++ f.unit ++ ")"

/-- The signed/total weight accumulators of `synthesize`'s weighted-vote loop:
skip errored results; weight = category weight × confidence; BULLISH adds to
both, BEARISH subtracts from the signed one and adds to the total, NEUTRAL
touches neither. -/
def voteStep (acc : ℚ × ℚ) (r : AgentResult) : ℚ × ℚ :=
  if truthyErr r then acc
  else
    let w := catWeight r.category * r.confidence
    match r.signal with
    | .BULLISH => (acc.1 + w, acc.2 + w)
    | .BEARISH => (acc.1 - w, acc.2 + w)
    | .NEUTRAL => acc

def voteAcc (results : List AgentResult) : ℚ × ℚ :=
  results.foldl voteStep (0, 0)

/-- `report.weighted_score = weighted_score / total_weight if total_weight > 0
else 0` in `synthesize`. -/
def weightedScore (results : List AgentResult) : ℚ :=
  if (voteAcc results).2 > 0 then (voteAcc results).1 / (voteAcc results).2 else 0

/-- The composite signal thresholds at the end of `synthesize`:
BULLISH above 0.2, BEARISH below −0.2, otherwise NEUTRAL. -/
def overallSignal (results : List AgentResult) : Signal :=
  if weightedScore results > 0.2 then Signal.BULLISH
  else if weightedScore results < -0.2 then Signal.BEARISH
  else Signal.NEUTRAL

/-- `SignalSynthesizer.synthesize`.  `now` is the clock value read by
`datetime.now()` when the `SwarmReport` is constructed. -/
def synthesize (now : ℚ) (results : List AgentResult) : SwarmReport :=
  let af := allFactors results
  { agent_results := results
    overall_signal := overallSignal results
    weighted_score := weightedScore results
    bull_factors := (af.filter (fun f => decide (f.signal = Signal.BULLISH))).map factorLabel
    neutral_factors := (af.filter (fun f => decide (f.signal = Signal.NEUTRAL))).map factorLabel
    bear_factors := (af.filter (fun f => decide (f.signal = Signal.BEARISH))).map factorLabel
    narrative := ""
    all_sources := (af.filter (fun f => !f.source.url.isEmpty)).map (·.source)
    live_count := af.countP (·.is_live)
    fallback_count := af.countP (fun f => !f.is_live)
    timestamp := now }

/-! ## Fetcher lemmas -/

/-- A value accepted by `_validate_value` lies inside the configured bounds. -/
theorem validate_true_bounds {key : String} {lo hi v : ℚ}
    (hb : VALUE_BOUNDS key = some (lo, hi)) (hv : validate_value key v = true) :
    lo ≤ v ∧ v ≤ hi := by
  unfold validate_value at hv
  rw [hb] at hv
  exact of_decide_eq_true hv

/-- Every configured hardcoded fallback value lies inside that key's
configured bounds (checked entry by entry against the two tables). -/
theorem fallback_in_bounds {key : String} {f lo hi : ℚ}
    (hf : FALLBACK key = some f) (hb : VALUE_BOUNDS key = some (lo, hi)) :
    lo ≤ f ∧ f ≤ hi := by
  unfold FALLBACK at hf
  unfold VALUE_BOUNDS at hb
  by_cases h1 : key = "WALCL"
  · rw [if_pos h1] at hf hb
    simp only [Option.some.injEq, Prod.mk.injEq] at hf hb
    obtain ⟨rfl, rfl⟩ := hb
    subst hf
    norm_num
  rw [if_neg h1] at hf hb
  by_cases h2 : key = "TGA"
  · rw [if_pos h2] at hf hb
    simp only [Option.some.injEq, Prod.mk.injEq] at hf hb
    obtain ⟨rfl, rfl⟩ := hb
    subst hf
    norm_num
  rw [if_neg h2] at hf hb
  by_cases h3 : key = "RRP"
  · rw [if_pos h3] at hf hb
    simp only [Option.some.injEq, Prod.mk.injEq] at hf hb
    obtain ⟨rfl, rfl⟩ := hb
    subst hf
    norm_num
  rw [if_neg h3] at hf hb
  by_cases h4 : key = "DGS10"
  · rw [if_pos h4] at hf hb
    simp only [Option.some.injEq, Prod.mk.injEq] at hf hb
    obtain ⟨rfl, rfl⟩ := hb
    subst hf
    norm_num
  rw [if_neg h4] at hf hb
  by_cases h5 : key = "DGS2"
  · rw [if_pos h5] at hf hb
    simp only [Option.some.injEq, Prod.mk.injEq] at hf hb
    obtain ⟨rfl, rfl⟩ := hb
    subst hf
    norm_num
  rw [if_neg h5] at hf hb
  by_cases h6 : key = "T10Y2Y"
  · rw [if_pos h6] at hf hb
    simp only [Option.some.injEq, Prod.mk.injEq] at hf hb
    obtain ⟨rfl, rfl⟩ := hb
    subst hf
    norm_num
  rw [if_neg h6] at hf hb
  by_cases h7 : key = "HY_OAS"
  · rw [if_pos h7] at hf hb
    simp only [Option.some.injEq, Prod.mk.injEq] at hf hb
    obtain ⟨rfl, rfl⟩ := hb
    subst hf
    norm_num
  rw [if_neg h7] at hf hb
  by_cases h8 : key = "IG_OAS"
  · rw [if_pos h8] at hf hb
    simp only [Option.some.injEq, Prod.mk.injEq] at hf hb
    obtain ⟨rfl, rfl⟩ := hb
    subst hf
    norm_num
  rw [if_neg h8] at hf hb
  by_cases h9 : key = "VIX"
  · rw [if_pos h9] at hf hb
    simp only [Option.some.injEq, Prod.mk.injEq] at hf hb
    obtain ⟨rfl, rfl⟩ := hb
    subst hf
    norm_num
  rw [if_neg h9] at hf hb
  by_cases h10 : key = "SP500_PE"
  · rw [if_pos h10] at hf hb
    simp only [Option.some.injEq, Prod.mk.injEq] at hf hb
    obtain ⟨rfl, rfl⟩ := hb
    subst hf
    norm_num
  rw [if_neg h10] at hf hb
  by_cases h11 : key = "SP500_FWD_PE"
  · rw [if_pos h11] at hf hb
    simp only [Option.some.injEq, Prod.mk.injEq] at hf hb
    obtain ⟨rfl, rfl⟩ := hb
    subst hf
    norm_num
  rw [if_neg h11] at hf hb
  by_cases h12 : key = "DXY"
  · rw [if_pos h12] at hf hb
    simp only [Option.some.injEq, Prod.mk.injEq] at hf hb
    obtain ⟨rfl, rfl⟩ := hb
    subst hf
    norm_num
  rw [if_neg h12] at hf hb
  by_cases h13 : key = "SOFR"
  · rw [if_pos h13] at hf hb
    simp only [Option.some.injEq, Prod.mk.injEq] at hf hb
    obtain ⟨rfl, rfl⟩ := hb
    subst hf
    norm_num
  rw [if_neg h13] at hf hb
  by_cases h14 : key = "SHILLER_CAPE"
  · rw [if_pos h14] at hf hb
    simp only [Option.some.injEq, Prod.mk.injEq] at hf hb
    obtain ⟨rfl, rfl⟩ := hb
    subst hf
    norm_num
  rw [if_neg h14] at hf
  simp at hf

/-- A value returned by the non-FRED chain passed `_validate_value`. -/
theorem chainTryGo_validates {key : String} {oracle : Nat → Option ℚ} {v : ℚ} :
    ∀ {L : List Nat}, (chainTryGo key oracle L).1 = some v →
      validate_value key v = true := by
  intro L
  induction L with
  | nil => intro h; simp [chainTryGo] at h
  | cons a t ih =>
    intro h
    unfold chainTryGo at h
    cases hoa : oracle a with
    | none =>
      rw [hoa] at h
      simp only [] at h
      exact ih h
    | some w =>
      rw [hoa] at h
      simp only [] at h
      by_cases hval : validate_value key w
      · rw [if_pos hval] at h
        simp only [Option.some.injEq] at h
        subst h
        exact hval
      · rw [if_neg hval] at h
        exact ih h

/-- A value returned by `chainTry` passed `_validate_value`. -/
theorem chainTry_validates {key : String} {oracle : Nat → Option ℚ} {v : ℚ}
    (h : (chainTry key oracle).1 = some v) : validate_value key v = true :=
  chainTryGo_validates h

/-- A value returned by the FRED tier passed `_validate_value`. -/
theorem fredStep_validates {key : String} {r : Option ℚ} {v : ℚ}
    (h : fredStep key r = some v) : validate_value key v = true := by
  unfold fredStep at h
  cases hid : fredId key with
  | none => rw [hid] at h; simp at h
  | some fid =>
    rw [hid] at h
    simp only [] at h
    cases hr : r with
    | none => rw [hr] at h; simp at h
    | some w =>
      rw [hr] at h
      simp only [] at h
      by_cases hval : validate_value key w
      · rw [if_pos hval] at h
        simp only [Option.some.injEq] at h
        subst h
        exact hval
      · rw [if_neg hval] at h
        simp at h

/-- C1: for every indicator key with configured `(lo, hi)` bounds, `fetch`
never returns a value outside those bounds: tier successes are
bounds-validated, an out-of-bounds FRED-tier value is treated exactly as that
tier's failure (the call behaves as if the tier had returned nothing, falling
through to the next tier), and every hardcoded fallback value itself lies
within the configured bounds. -/
theorem fetch_within_bounds :
    (∀ (key : String) (fredFetch : String → Option ℚ) (oracle : Nat → Option ℚ)
        (v : ℚ) (live : Bool) (src : DataSource) (lo hi : ℚ),
      fetch key fredFetch oracle = .ok (v, live, src) →
      VALUE_BOUNDS key = some (lo, hi) → lo ≤ v ∧ v ≤ hi)
    ∧ (∀ (key : String) (v : ℚ) (oracle : Nat → Option ℚ),
        validate_value key v = false →
        fetchCore key (some v) oracle = fetchCore key none oracle) := by
  constructor
  · intro key fredFetch oracle v live src lo hi h hb
    unfold fetch fetchCore at h
    cases hfs : fredStep key ((fredId key).bind fredFetch) with
    | some w =>
      rw [hfs] at h
      simp only [Except.ok.injEq, Prod.mk.injEq] at h
      obtain ⟨rfl, -, -⟩ := h
      exact validate_true_bounds hb (fredStep_validates hfs)
    | none =>
      rw [hfs] at h
      simp only [] at h
      cases hct : (chainTry key oracle).1 with
      | some w =>
        rw [hct] at h
        simp only [Except.ok.injEq, Prod.mk.injEq] at h
        obtain ⟨rfl, -, -⟩ := h
        exact validate_true_bounds hb (chainTry_validates hct)
      | none =>
        rw [hct] at h
        simp only [] at h
        cases hfb : FALLBACK key with
        | some f =>
          rw [hfb] at h
          simp only [Except.ok.injEq, Prod.mk.injEq] at h
          obtain ⟨rfl, -, -⟩ := h
          exact fallback_in_bounds hfb hb
        | none => rw [hfb] at h; simp at h
  · intro key v oracle hval
    unfold fetchCore fredStep
    cases fredId key <;> simp [hval]

/-- Witness for C1 at a concrete input: a live FRED value 20 for `VIX` is
returned and lies within the configured bounds `(5, 100)`. -/
theorem fetch_within_bounds_witness : (5 : ℚ) ≤ 20 ∧ (20 : ℚ) ≤ 100 :=
  fetch_within_bounds.1 "VIX" (fun _ => some 20) (fun _ => none) 20 true
    (mkSource "VIX") 5 100 (by rfl) (by rfl)

/-- C2: when the FRED tier and the whole non-FRED chain fail (or yield only
out-of-bounds values), `fetch` returns `(fallback, False, source)` whenever a
hardcoded fallback is configured for the key — the staleness of the fallback
snapshot only selects a log message in the source and never changes the
returned value — and `fetch` raises (`ValueError`, the no-data condition) if
and only if no fallback is configured for the key and every tier has failed. -/
theorem fetch_fallback_or_raise :
    ∀ (key : String) (fredFetch : String → Option ℚ) (oracle : Nat → Option ℚ),
      (fredStep key ((fredId key).bind fredFetch) = none →
        (chainTry key oracle).1 = none →
        ∀ f, FALLBACK key = some f →
          fetch key fredFetch oracle = .ok (f, false, mkSource key))
      ∧ ((∃ e, fetch key fredFetch oracle = .error e) ↔
          (FALLBACK key = none ∧ fredStep key ((fredId key).bind fredFetch) = none ∧
            (chainTry key oracle).1 = none)) := by
  intro key fredFetch oracle
  constructor
  · intro hfs hct f hfb
    unfold fetch fetchCore
    rw [hfs]
    simp only []
    rw [hct]
    simp only []
    rw [hfb]
  · constructor
    · rintro ⟨e, he⟩
      unfold fetch fetchCore at he
      cases hfs : fredStep key ((fredId key).bind fredFetch) with
      | some w => rw [hfs] at he; simp at he
      | none =>
        rw [hfs] at he
        simp only [] at he
        cases hct : (chainTry key oracle).1 with
        | some w => rw [hct] at he; simp at he
        | none =>
          rw [hct] at he
          simp only [] at he
          cases hfb : FALLBACK key with
          | some f => rw [hfb] at he; simp at he
          | none => exact ⟨rfl, rfl, rfl⟩
    · rintro ⟨hfb, hfs, hct⟩
      refine ⟨"No data available for " ++ key, ?_⟩
      unfold fetch fetchCore
      rw [hfs]
      simp only []
      rw [hct]
      simp only []
      rw [hfb]

/-- Witness for C2 at a concrete input: with every tier failing, `WALCL`
returns its configured fallback `6605909` with `is_live = False`, and the
unconfigured key `"NOPE"` raises. -/
theorem fetch_fallback_or_raise_witness :
    fetch "WALCL" (fun _ => none) (fun _ => none) =
        .ok (6605909, false, mkSource "WALCL")
      ∧ (∃ e, fetch "NOPE" (fun _ => none) (fun _ => none) = .error e) := by
  constructor
  · exact (fetch_fallback_or_raise "WALCL" (fun _ => none) (fun _ => none)).1
      (by rfl) (by rfl) 6605909 (by rfl)
  · exact (fetch_fallback_or_raise "NOPE" (fun _ => none) (fun _ => none)).2.mpr
      ⟨by rfl, by rfl, by rfl⟩
/-! ## `_vote` (C3) -/

/-- A minimal `FactorReading` carrying a given signal, for concrete vote
examples. -/
def sampleReading (s : Signal) : FactorReading :=
  { name := "f", name_en := "f", category := .LIQUIDITY, current_value := 0
    unit := "", signal := s, source := ⟨"s", "", none, "Daily"⟩ }

/-- C3: `_vote` returns `(BULLISH, bull/total)` when bullish factors strictly
outnumber bearish ones, `(BEARISH, bear/total)` in the symmetric case, and
`(NEUTRAL, 0.5)` on a tie, where `total` is the full factor count (NEUTRAL
factors count in the denominator); concretely,
`[BULLISH, BULLISH, NEUTRAL] ↦ (BULLISH, 2/3)`,
`[BULLISH, BEARISH] ↦ (NEUTRAL, 0.5)`, and the empty or all-NEUTRAL list
yields `(NEUTRAL, 0.5)` without error. -/
theorem vote_spec :
    (∀ fs : List FactorReading,
      (fs.countP (fun f => decide (f.signal = Signal.BULLISH)) >
          fs.countP (fun f => decide (f.signal = Signal.BEARISH)) →
        vote fs = (Signal.BULLISH,
          (fs.countP (fun f => decide (f.signal = Signal.BULLISH)) : ℚ) /
            (fs.length : ℚ)))
      ∧ (fs.countP (fun f => decide (f.signal = Signal.BEARISH)) >
            fs.countP (fun f => decide (f.signal = Signal.BULLISH)) →
          vote fs = (Signal.BEARISH,
            (fs.countP (fun f => decide (f.signal = Signal.BEARISH)) : ℚ) /
              (fs.length : ℚ)))
      ∧ (fs.countP (fun f => decide (f.signal = Signal.BULLISH)) =
            fs.countP (fun f => decide (f.signal = Signal.BEARISH)) →
          vote fs = (Signal.NEUTRAL, 1/2)))
    ∧ vote [sampleReading Signal.BULLISH, sampleReading Signal.BULLISH,
        sampleReading Signal.NEUTRAL] = (Signal.BULLISH, 2/3)
    ∧ vote [sampleReading Signal.BULLISH, sampleReading Signal.BEARISH] =
        (Signal.NEUTRAL, 1/2)
    ∧ vote [] = (Signal.NEUTRAL, 1/2)
    ∧ (∀ fs : List FactorReading, (∀ f ∈ fs, f.signal = Signal.NEUTRAL) →
        vote fs = (Signal.NEUTRAL, 1/2)) := by
  refine ⟨?_, by simp [vote, sampleReading], by simp [vote, sampleReading],
    by simp [vote], ?_⟩
  · intro fs
    refine ⟨?_, ?_, ?_⟩
    · intro hgt
      by_cases hlen : fs.length = 0
      · rw [List.length_eq_zero] at hlen
        subst hlen
        simp at hgt
      · unfold vote
        rw [if_pos hgt, if_neg hlen]
    · intro hgt
      by_cases hlen : fs.length = 0
      · rw [List.length_eq_zero] at hlen
        subst hlen
        simp at hgt
      · unfold vote
        rw [if_neg (by omega), if_pos hgt, if_neg hlen]
    · intro heq
      unfold vote
      rw [if_neg (by omega), if_neg (by omega)]
  · intro fs hall
    have hb : fs.countP (fun f => decide (f.signal = Signal.BULLISH)) = 0 := by
      rw [List.countP_eq_zero]
      intro f hf
      simp [hall f hf]
    have hr : fs.countP (fun f => decide (f.signal = Signal.BEARISH)) = 0 := by
      rw [List.countP_eq_zero]
      intro f hf
      simp [hall f hf]
    unfold vote
    rw [hb, hr]
    simp

/-- Witness for C3's quantified parts at concrete inputs: a single bullish
factor gives `(BULLISH, 1/1)` and a single neutral factor gives
`(NEUTRAL, 1/2)`. -/
theorem vote_spec_witness :
    vote [sampleReading Signal.BULLISH] = (Signal.BULLISH,
        (([sampleReading Signal.BULLISH].countP
            (fun f => decide (f.signal = Signal.BULLISH)) : ℚ) /
          (([sampleReading Signal.BULLISH] : List FactorReading).length : ℚ)))
      ∧ vote [sampleReading Signal.NEUTRAL] = (Signal.NEUTRAL, 1/2) :=
  ⟨(vote_spec.1 [sampleReading Signal.BULLISH]).1 (by decide),
    vote_spec.2.2.2.2 [sampleReading Signal.NEUTRAL] (by decide)⟩

/-! ## `ValuationAgent.analyze` guard (C9, C10) -/

/-- C9: the ERP divisor in `ValuationAgent.analyze` is always positive — when
the fetched Forward PE is non-positive the historical-average constant (17.0)
is substituted and the ERP factor's liveness is downgraded to `False`, and the
agent still returns a result with no error. -/
theorem valuation_division_guard :
    ∀ (peVal : ℚ) (peLive : Bool) (fwdVal : ℚ) (fwdLive : Bool)
      (y10Val : ℚ) (y10Live : Bool) (now : ℚ),
      0 < (fwdGuard fwdVal fwdLive).1
      ∧ (fwdVal ≤ 0 →
          fwdGuard fwdVal fwdLive = (TH_FWD_PE.hist_avg, false)
          ∧ (analyzeValuation peVal peLive fwdVal fwdLive y10Val y10Live now).error =
              none
          ∧ (((analyzeValuation peVal peLive fwdVal fwdLive y10Val y10Live
              now).factors.get? 3).map (·.is_live)) = some false) := by
  intro peVal peLive fwdVal fwdLive y10Val y10Live now
  constructor
  · unfold fwdGuard
    by_cases h : fwdVal ≤ 0
    · rw [if_pos h]
      norm_num [TH_FWD_PE]
    · rw [if_neg h]
      push_neg at h
      exact h
  · intro h
    refine ⟨by simp [fwdGuard, h], ?_, ?_⟩
    · simp [analyzeValuation]
    · simp [analyzeValuation, fwdGuard, h]

/-- Witness for C9 at a concrete input: with fetched Forward PE −3 the
divisor becomes 17, the ERP factor is not live, and the agent returns without
error. -/
theorem valuation_division_guard_witness :
    0 < (fwdGuard (-3) true).1
      ∧ fwdGuard (-3) true = (TH_FWD_PE.hist_avg, false)
      ∧ (analyzeValuation 29.81 true (-3) true 4.16 true 0).error = none
      ∧ (((analyzeValuation 29.81 true (-3) true 4.16 true 0).factors.get? 3).map
          (·.is_live)) = some false := by
  obtain ⟨h1, h2⟩ := valuation_division_guard 29.81 true (-3) true 4.16 true 0
  obtain ⟨h3, h4, h5⟩ := h2 (by norm_num)
  exact ⟨h1, h3, h4, h5⟩

/-- C10: when the Forward PE guard fires, the Forward PE `FactorReading`
already appended to the factor list keeps the original non-positive fetched
value and the original liveness flag; only the ERP computation, the ERP
factor's liveness, and the summary string use the substituted
historical-average value. -/
theorem valuation_guard_frame :
    ∀ (peVal : ℚ) (peLive : Bool) (fwdVal : ℚ) (fwdLive : Bool)
      (y10Val : ℚ) (y10Live : Bool) (now : ℚ), fwdVal ≤ 0 →
      ((analyzeValuation peVal peLive fwdVal fwdLive y10Val y10Live
          now).factors.get? 1).map (fun f => (f.current_value, f.is_live)) =
          some (fwdVal, fwdLive)
      ∧ ((analyzeValuation peVal peLive fwdVal fwdLive y10Val y10Live
          now).factors.get? 3).map (fun f => (f.current_value, f.is_live)) =
          some (round2 ((1 / TH_FWD_PE.hist_avg) * 100 - y10Val), false)
      ∧ (analyzeValuation peVal peLive fwdVal fwdLive y10Val y10Live now).summary =
          valuationSummary peVal TH_FWD_PE.hist_avg
            ((1 / TH_FWD_PE.hist_avg) * 100 - y10Val) := by
  intro peVal peLive fwdVal fwdLive y10Val y10Live now h
  refine ⟨?_, ?_, ?_⟩
  · simp [analyzeValuation]
  · simp [analyzeValuation, fwdGuard, h]
  · simp [analyzeValuation, fwdGuard, h]

/-- Witness for C10 at a concrete input: with fetched Forward PE −3 (live),
the appended Forward PE reading keeps `(−3, true)` while the ERP factor and
summary are computed from the substituted 17. -/
theorem valuation_guard_frame_witness :
    ((analyzeValuation 29.81 true (-3) true 4.16 true 0).factors.get? 1).map
        (fun f => (f.current_value, f.is_live)) = some ((-3 : ℚ), true)
      ∧ ((analyzeValuation 29.81 true (-3) true 4.16 true 0).factors.get? 3).map
          (fun f => (f.current_value, f.is_live)) =
          some (round2 ((1 / TH_FWD_PE.hist_avg) * 100 - 4.16), false)
      ∧ (analyzeValuation 29.81 true (-3) true 4.16 true 0).summary =
          valuationSummary 29.81 TH_FWD_PE.hist_avg
            ((1 / TH_FWD_PE.hist_avg) * 100 - 4.16) :=
  valuation_guard_frame 29.81 true (-3) true 4.16 true 0 (by norm_num)

/-! ## Synthesizer weighted vote (C4) -/

/-- The sign with which an agent's weight enters the signed accumulator
(claim-side description: BULLISH adds, BEARISH subtracts, NEUTRAL neither). -/
def dirSign : Signal → ℚ
  | .BULLISH => 1
  | .BEARISH => -1
  | .NEUTRAL => 0

/-- Whether a signal contributes to the total-weight denominator
(claim-side description: NEUTRAL agents are excluded). -/
def isDirectional : Signal → Bool
  | .BULLISH => true
  | .BEARISH => true
  | .NEUTRAL => false

/-- Claim-side signed accumulator: sum over non-errored agents of
`±(category weight × confidence)`. -/
def specSigned (results : List AgentResult) : ℚ :=
  ((results.filter (fun r => !truthyErr r)).map
    (fun r => dirSign r.signal * (catWeight r.category * r.confidence))).sum

/-- Claim-side total weight: sum over non-errored directional agents of
`category weight × confidence`. -/
def specTotal (results : List AgentResult) : ℚ :=
  ((results.filter (fun r => !truthyErr r && isDirectional r.signal)).map
    (fun r => catWeight r.category * r.confidence)).sum

/-- The synthesizer's fold computes exactly the claim-side sums. -/
theorem voteAcc_eq (results : List AgentResult) :
    voteAcc results = (specSigned results, specTotal results) := by
  have key : ∀ (rs : List AgentResult) (a b : ℚ),
      rs.foldl voteStep (a, b) = (a + specSigned rs, b + specTotal rs) := by
    intro rs
    induction rs with
    | nil => intro a b; simp [specSigned, specTotal]
    | cons r t ih =>
      intro a b
      rw [List.foldl_cons]
      by_cases he : truthyErr r
      · rw [show voteStep (a, b) r = (a, b) from by simp [voteStep, he]]
        rw [ih]
        simp [specSigned, specTotal, he]
      · cases hs : r.signal
        · rw [show voteStep (a, b) r =
              (a + catWeight r.category * r.confidence,
                b + catWeight r.category * r.confidence) from by
            simp [voteStep, he, hs]]
          rw [ih]
          simp only [specSigned, specTotal, List.filter_cons, he, hs,
            Bool.not_false, Bool.and_self, if_pos, List.map_cons, List.sum_cons,
            dirSign, isDirectional, Bool.and_true, Prod.mk.injEq]
          constructor <;> ring
        · rw [show voteStep (a, b) r =
              (a - catWeight r.category * r.confidence,
                b + catWeight r.category * r.confidence) from by
            simp [voteStep, he, hs]]
          rw [ih]
          simp only [specSigned, specTotal, List.filter_cons, he, hs,
            Bool.not_false, Bool.and_self, if_pos, List.map_cons, List.sum_cons,
            dirSign, isDirectional, Bool.and_true, Prod.mk.injEq]
          constructor <;> ring
        · rw [show voteStep (a, b) r = (a, b) from by simp [voteStep, he, hs]]
          rw [ih]
          simp only [specSigned, specTotal, List.filter_cons, he, hs,
            Bool.not_false, Bool.and_self, if_pos, List.map_cons, List.sum_cons,
            dirSign, isDirectional, Bool.and_false, Bool.and_true,
            Bool.false_eq_true, if_false, Prod.mk.injEq]
          constructor <;> ring
  have h := key results 0 0
  rw [voteAcc, h]
  norm_num

/-- Every category weight in `AGENT_WEIGHTS` is positive. -/
theorem catWeight_pos : ∀ c, 0 < catWeight c := by
  intro c
  cases c <;> norm_num [catWeight]

/-- With nonnegative confidences the total weight is nonnegative. -/
theorem specTotal_nonneg (results : List AgentResult)
    (h : ∀ r ∈ results, 0 ≤ r.confidence) : 0 ≤ specTotal results := by
  apply List.sum_nonneg
  intro x hx
  simp only [List.mem_map, List.mem_filter] at hx
  obtain ⟨r, ⟨hr, -⟩, rfl⟩ := hx
  exact mul_nonneg (le_of_lt (catWeight_pos r.category)) (h r hr)

/-- C4: `synthesize` skips errored results; every surviving agent contributes
weight = category weight × confidence, added to the signed accumulator for
BULLISH, subtracted for BEARISH, and omitted (from both accumulators) for
NEUTRAL; the score is signed/total, or 0 when the total weight is 0; and the
overall signal is BULLISH above 0.2, BEARISH below −0.2, else NEUTRAL.
(Confidences are nonnegative — they lie in [0, 1] in the data model.) -/
theorem synthesize_weighted_vote :
    ∀ (now : ℚ) (results : List AgentResult),
      (∀ r ∈ results, 0 ≤ r.confidence) →
      (synthesize now results).weighted_score =
          (if specTotal results = 0 then 0
            else specSigned results / specTotal results)
        ∧ (synthesize now results).overall_signal =
          (if (if specTotal results = 0 then 0
                else specSigned results / specTotal results) > 0.2 then
              Signal.BULLISH
            else if (if specTotal results = 0 then 0
                else specSigned results / specTotal results) < -0.2 then
              Signal.BEARISH
            else Signal.NEUTRAL) := by
  intro now results h
  have hnn := specTotal_nonneg results h
  have hw : weightedScore results =
      (if specTotal results = 0 then 0
        else specSigned results / specTotal results) := by
    unfold weightedScore
    rw [voteAcc_eq]
    simp only []
    by_cases ht : specTotal results = 0
    · simp [ht]
    · have hpos : 0 < specTotal results := lt_of_le_of_ne hnn (Ne.symm ht)
      simp [ht, hpos]
  have hsc : (synthesize now results).weighted_score = weightedScore results := rfl
  have hov : (synthesize now results).overall_signal = overallSignal results := rfl
  constructor
  · rw [hsc, hw]
  · rw [hov]
    unfold overallSignal
    rw [hw]

/-- A sample non-errored bullish agent result for concrete instantiation. -/
def sampleAgentResult : AgentResult :=
  { agent_name := "LiquidityAgent", category := .LIQUIDITY
    factors := [sampleReading Signal.BULLISH], summary := ""
    signal := Signal.BULLISH, confidence := 0.8, formula := ""
    error := none, timestamp := 0 }

/-- Witness for C4 at a concrete input (one bullish agent with confidence
0.8). -/
theorem synthesize_weighted_vote_witness :
    (synthesize 0 [sampleAgentResult]).weighted_score =
        (if specTotal [sampleAgentResult] = 0 then 0
          else specSigned [sampleAgentResult] / specTotal [sampleAgentResult])
      ∧ (synthesize 0 [sampleAgentResult]).overall_signal =
        (if (if specTotal [sampleAgentResult] = 0 then 0
              else specSigned [sampleAgentResult] / specTotal [sampleAgentResult]) >
            0.2 then Signal.BULLISH
          else if (if specTotal [sampleAgentResult] = 0 then 0
              else specSigned [sampleAgentResult] / specTotal [sampleAgentResult]) <
            -0.2 then Signal.BEARISH
          else Signal.NEUTRAL) :=
  synthesize_weighted_vote 0 [sampleAgentResult] (by
    intro r hr
    rw [List.mem_singleton] at hr
    subst hr
    norm_num [sampleAgentResult])

/-! ## Synthesizer counts (C5) -/

/-- Counting a predicate and its negation partitions a list. -/
theorem countP_add_countP_not {α : Type} (p : α → Bool) (l : List α) :
    l.countP p + l.countP (fun a => !p a) = l.length := by
  induction l with
  | nil => simp
  | cons a t ih =>
    by_cases h : p a <;> simp [List.countP_cons, h] <;> omega

/-- The flattened factor list is as long as the per-result factor counts. -/
theorem allFactors_length (results : List AgentResult) :
    (allFactors results).length =
      ((results.filter (fun r => !truthyErr r)).map
        (fun r => r.factors.length)).sum := by
  unfold allFactors survivors
  rw [List.length_flatMap]
  rfl

/-- C5 as amended: `live_count + fallback_count` equals the total number of
`FactorReading`s across all `AgentResult`s whose error is *falsy* (unset or
the empty string) — each factor increments exactly one of the two counters
according to its `is_live` flag.  (The source skips a result on `if r.error:`,
which treats an empty-string error like an unset one.) -/
theorem synthesize_counts :
    ∀ (now : ℚ) (results : List AgentResult),
      (synthesize now results).live_count + (synthesize now results).fallback_count =
        ((results.filter (fun r => !truthyErr r)).map
          (fun r => r.factors.length)).sum := by
  intro now results
  have h1 : (synthesize now results).live_count =
      (allFactors results).countP (·.is_live) := rfl
  have h2 : (synthesize now results).fallback_count =
      (allFactors results).countP (fun f => !f.is_live) := rfl
  rw [h1, h2, countP_add_countP_not, allFactors_length]

/-- An `AgentResult` whose `error` field is set — to the empty string — yet
whose factors the synthesizer still counts. -/
def emptyErrResult : AgentResult :=
  { agent_name := "A", category := .LIQUIDITY
    factors := [sampleReading Signal.NEUTRAL], summary := ""
    signal := Signal.NEUTRAL, confidence := 0.5, formula := ""
    error := some "", timestamp := 0 }

/-- Counterexample to C5 as stated: for a result whose `error` field is set
to `""`, `live_count + fallback_count` is 1 but the total factor count over
results with `error` strictly unset (`None`) is 0. -/
theorem synthesize_counts_cex :
    ¬ ((synthesize 0 [emptyErrResult]).live_count +
          (synthesize 0 [emptyErrResult]).fallback_count =
        (([emptyErrResult].filter (fun r => r.error.isNone)).map
          (fun r => r.factors.length)).sum) := by
  decide

/-! ## Synthesizer purity (C6) -/

/-- Counterexample to C6 as stated: `SwarmReport.timestamp` defaults to the
construction-time clock (`datetime.now()`), so two calls of `synthesize` on
the same input at different clock readings differ in the `timestamp` field —
the reports are not byte-identical in every field. -/
theorem synthesize_clock_dependent :
    (synthesize 0 []).timestamp ≠ (synthesize 1 []).timestamp
      ∧ synthesize 0 [] ≠ synthesize 1 [] := by
  have h1 : (synthesize 0 []).timestamp = 0 := rfl
  have h2 : (synthesize 1 []).timestamp = 1 := rfl
  constructor
  · rw [h1, h2]
    norm_num
  · intro heq
    have h3 := congrArg SwarmReport.timestamp heq
    rw [h1, h2] at h3
    norm_num at h3

/-- C6 as amended: `synthesize` is a pure function of its input list and the
clock; on the same input, every field of the two `SwarmReport`s except
`timestamp` is identical, and `timestamp` is exactly the clock value read at
construction. -/
theorem synthesize_pure_fields :
    ∀ (t1 t2 : ℚ) (results : List AgentResult),
      (synthesize t1 results).agent_results = (synthesize t2 results).agent_results
      ∧ (synthesize t1 results).overall_signal = (synthesize t2 results).overall_signal
      ∧ (synthesize t1 results).weighted_score = (synthesize t2 results).weighted_score
      ∧ (synthesize t1 results).bull_factors = (synthesize t2 results).bull_factors
      ∧ (synthesize t1 results).neutral_factors = (synthesize t2 results).neutral_factors
      ∧ (synthesize t1 results).bear_factors = (synthesize t2 results).bear_factors
      ∧ (synthesize t1 results).narrative = (synthesize t2 results).narrative
      ∧ (synthesize t1 results).all_sources = (synthesize t2 results).all_sources
      ∧ (synthesize t1 results).live_count = (synthesize t2 results).live_count
      ∧ (synthesize t1 results).fallback_count = (synthesize t2 results).fallback_count
      ∧ (synthesize t1 results).timestamp = t1 := by
  intro t1 t2 results
  exact ⟨rfl, rfl, rfl, rfl, rfl, rfl, rfl, rfl, rfl, rfl, rfl⟩

/-! ## Synthesizer order invariance (C7) -/

/-- C7: `synthesize` is invariant to the order in which agent results are
listed — the weighted score, overall signal and live/fallback counts are
equal, and the bull/neutral/bear factor partitions and the source collection
are the same up to permutation (they are accumulated by unordered sums and
list membership). -/
theorem synthesize_perm_invariant :
    ∀ (now : ℚ) (rs1 rs2 : List AgentResult), rs1.Perm rs2 →
      (synthesize now rs1).weighted_score = (synthesize now rs2).weighted_score
      ∧ (synthesize now rs1).overall_signal = (synthesize now rs2).overall_signal
      ∧ (synthesize now rs1).live_count = (synthesize now rs2).live_count
      ∧ (synthesize now rs1).fallback_count = (synthesize now rs2).fallback_count
      ∧ ((synthesize now rs1).bull_factors).Perm ((synthesize now rs2).bull_factors)
      ∧ ((synthesize now rs1).neutral_factors).Perm
          ((synthesize now rs2).neutral_factors)
      ∧ ((synthesize now rs1).bear_factors).Perm ((synthesize now rs2).bear_factors)
      ∧ ((synthesize now rs1).all_sources).Perm ((synthesize now rs2).all_sources) := by
  intro now rs1 rs2 h
  have hs : (survivors rs1).Perm (survivors rs2) := h.filter _
  have haf : (allFactors rs1).Perm (allFactors rs2) := hs.flatMap_right _
  have hsig : specSigned rs1 = specSigned rs2 := ((h.filter _).map _).sum_eq
  have htot : specTotal rs1 = specTotal rs2 := ((h.filter _).map _).sum_eq
  have hws : weightedScore rs1 = weightedScore rs2 := by
    unfold weightedScore
    rw [voteAcc_eq, voteAcc_eq, hsig, htot]
  refine ⟨hws, ?_, ?_, ?_, ?_, ?_, ?_, ?_⟩
  · show overallSignal rs1 = overallSignal rs2
    unfold overallSignal
    rw [hws]
  · exact haf.countP_eq _
  · exact haf.countP_eq _
  · exact (haf.filter _).map _
  · exact (haf.filter _).map _
  · exact (haf.filter _).map _
  · exact (haf.filter _).map _

/-- A sample non-errored bearish agent result for concrete instantiation. -/
def sampleAgentResult2 : AgentResult :=
  { agent_name := "ValuationAgent", category := .VALUATION
    factors := [sampleReading Signal.BEARISH], summary := ""
    signal := Signal.BEARISH, confidence := 0.5, formula := ""
    error := none, timestamp := 0 }

/-- Witness for C7 at a concrete input: swapping two agent results. -/
theorem synthesize_perm_invariant_witness :
    (synthesize 0 [sampleAgentResult, sampleAgentResult2]).weighted_score =
        (synthesize 0 [sampleAgentResult2, sampleAgentResult]).weighted_score
      ∧ (synthesize 0 [sampleAgentResult, sampleAgentResult2]).overall_signal =
        (synthesize 0 [sampleAgentResult2, sampleAgentResult]).overall_signal
      ∧ (synthesize 0 [sampleAgentResult, sampleAgentResult2]).live_count =
        (synthesize 0 [sampleAgentResult2, sampleAgentResult]).live_count
      ∧ (synthesize 0 [sampleAgentResult, sampleAgentResult2]).fallback_count =
        (synthesize 0 [sampleAgentResult2, sampleAgentResult]).fallback_count
      ∧ ((synthesize 0 [sampleAgentResult, sampleAgentResult2]).bull_factors).Perm
        ((synthesize 0 [sampleAgentResult2, sampleAgentResult]).bull_factors)
      ∧ ((synthesize 0 [sampleAgentResult, sampleAgentResult2]).neutral_factors).Perm
        ((synthesize 0 [sampleAgentResult2, sampleAgentResult]).neutral_factors)
      ∧ ((synthesize 0 [sampleAgentResult, sampleAgentResult2]).bear_factors).Perm
        ((synthesize 0 [sampleAgentResult2, sampleAgentResult]).bear_factors)
      ∧ ((synthesize 0 [sampleAgentResult, sampleAgentResult2]).all_sources).Perm
        ((synthesize 0 [sampleAgentResult2, sampleAgentResult]).all_sources) :=
  synthesize_perm_invariant 0 [sampleAgentResult, sampleAgentResult2]
    [sampleAgentResult2, sampleAgentResult]
    (List.Perm.swap sampleAgentResult2 sampleAgentResult [])

/-! ## FRED cache behaviour (C8) -/

/-- Dict assignment followed by lookup finds the new entry. -/
theorem cacheLookup_insert (sid : String) (v now : ℚ) (st : FredCache) :
    cacheLookup sid (cacheInsert sid v now st) = some (v, now) := by
  unfold cacheLookup cacheInsert
  rw [List.find?_cons_of_pos]
  · rfl
  · simp

/-- A network success of `FREDClient.fetch` stores the value in the cache
under the series id, stamped with the current time. -/
theorem fredClientNetwork_cache {hasApiKey : Bool} {apiRes csvRes : Option ℚ}
    {st : FredCache} {now : ℚ} {sid : String} {v : ℚ} {c1 : FredCache}
    (h : fredClientFetch.fredClientNetwork hasApiKey apiRes csvRes st now sid =
      (some v, c1, true)) :
    cacheLookup sid c1 = some (v, now) := by
  unfold fredClientFetch.fredClientNetwork at h
  split at h
  · simp only [Prod.mk.injEq, Option.some.injEq] at h
    obtain ⟨rfl, rfl, -⟩ := h
    apply cacheLookup_insert
  · cases hc : csvRes with
    | some w =>
      rw [hc] at h
      simp only [Prod.mk.injEq, Option.some.injEq] at h
      obtain ⟨rfl, rfl, -⟩ := h
      apply cacheLookup_insert
    | none =>
      rw [hc] at h
      simp at h

/-- Any `FREDClient.fetch` success that touched the network leaves the value
cached under the series id at the current time. -/
theorem fredClientFetch_network_cache {hasApiKey : Bool}
    {apiRes csvRes : Option ℚ} {st : FredCache} {now : ℚ} {sid : String}
    {v : ℚ} {c1 : FredCache}
    (h : fredClientFetch hasApiKey apiRes csvRes st now sid = (some v, c1, true)) :
    cacheLookup sid c1 = some (v, now) := by
  unfold fredClientFetch at h
  cases hl : cacheLookup sid st with
  | some p =>
    obtain ⟨w, ts⟩ := p
    rw [hl] at h
    simp only [] at h
    by_cases htt : now - ts < 1800
    · rw [if_pos htt] at h
      simp at h
    · rw [if_neg htt] at h
      exact fredClientNetwork_cache h
  | none =>
    rw [hl] at h
    simp only [] at h
    exact fredClientNetwork_cache h

/-- C8 as amended: for a FRED-backed indicator, a network-tier success of the
FRED client caches the value under the series id, and a subsequent
`MacroDataFetcher.fetch` of the same key within the 30-minute TTL is served
from the cache — same value, cache unchanged, no network attempt and no chain
attempt — regardless of what the network would return the second time.
(Non-FRED tier successes are not cached; see the counterexample.) -/
theorem fred_cache_second_fetch :
    ∀ (key fid : String) (hasK hasK2 : Bool)
      (apiRes csvRes apiRes2 csvRes2 : Option ℚ) (oracle2 : Nat → Option ℚ)
      (c0 c1 : FredCache) (t0 t1 v : ℚ),
      fredId key = some fid →
      fredClientFetch hasK apiRes csvRes c0 t0 fid = (some v, c1, true) →
      validate_value key v = true →
      t1 - t0 < 1800 →
      fetchS key hasK2 apiRes2 csvRes2 oracle2 c1 t1 =
        ⟨.ok (v, true, mkSource key), c1, false, 0⟩ := by
  intro key fid hasK hasK2 apiRes csvRes apiRes2 csvRes2 oracle2 c0 c1 t0 t1 v
    hid hfc hval htt
  have hl : cacheLookup fid c1 = some (v, t0) := fredClientFetch_network_cache hfc
  have hsecond : fredClientFetch hasK2 apiRes2 csvRes2 c1 t1 fid =
      (some v, c1, false) := by
    unfold fredClientFetch
    rw [hl]
    simp only []
    rw [if_pos htt]
  unfold fetchS
  rw [hid]
  simp only []
  rw [hsecond]
  simp only []
  rw [if_pos hval]

/-- Witness for C8's amended statement at a concrete input: after a FRED API
success `VIX = 20` at time 0, a fetch at time 100 is served from the cache —
even though the API would now return 21 — with no network or chain attempt. -/
theorem fred_cache_second_fetch_witness :
    fetchS "VIX" true (some 21) none (fun _ => none) [("VIXCLS", 20, 0)] 100 =
      ⟨.ok (20, true, mkSource "VIX"), [("VIXCLS", 20, 0)], false, 0⟩ :=
  fred_cache_second_fetch "VIX" "VIXCLS" true true (some 20) none (some 21) none
    (fun _ => none) [] [("VIXCLS", 20, 0)] 0 100 20 rfl rfl rfl (by norm_num)

/-- Counterexample to C8 as stated: a successful *non-FRED* tier fetch does
not update any in-process value cache.  `DXY` succeeds live via its alternate
chain at time 0 yet the FRED cache stays empty, and a second fetch within the
TTL (at time 60) re-attempts the chain's network tier instead of being served
from a cache. -/
theorem fetch_cache_claim_cex :
    (fetchS "DXY" false none none (fun _ => some 96) [] 0).result =
        .ok (96, true, mkSource "DXY")
      ∧ (fetchS "DXY" false none none (fun _ => some 96) [] 0).cache = []
      ∧ (fetchS "DXY" false none none (fun _ => some 96)
          ((fetchS "DXY" false none none (fun _ => some 96) [] 0).cache)
          60).chainAttempts = 1 :=
  ⟨rfl, rfl, rfl⟩
